import Mathlib

/-!
# Verification of the expense-tracker validation + CRUD + summary pipeline

Shallow embedding of the repository's backend (`backend/utils/validators.js`,
`backend/models/database.js`, `backend/controllers/expenseController.js`) and
of the client pieces that the claims mention (`utils.js` form validation and
the `api.js` fetch wrapper).

Modelling conventions:
* JavaScript numbers are modelled as `JsNum` (`nan`, the two infinities, or an
  exact rational).  The idealization replaces IEEE-754 doubles by rationals;
  overflow/rounding of doubles is not exercised by any claim.
* JavaScript values that reach the pipeline are `JSVal`: `undefined`, `null`,
  a string, or a number.  A record candidate is four such fields.
* Fallible operations return `Option`/`Except`.  A JavaScript `TypeError`
  (e.g. calling `.trim()` on a number) makes `sanitizeExpense` return `none`.
* Timestamps are milliseconds since the Unix epoch (`ℤ`); the current instant
  is a `Clock` carrying the current UTC day, milliseconds into that day, and
  the local timezone offset east of UTC in minutes.
-/

set_option autoImplicit false

/-- A JavaScript number: NaN, ±Infinity, or a finite value (idealized as `ℚ`). -/
inductive JsNum where
  | nan
  | inf
  | ninf
  | fin (q : ℚ)
  deriving DecidableEq, Repr

namespace JsNum

/-- `isNaN` on an already-numeric value. -/
def isNaN : JsNum → Bool
  | nan => true
  | _ => false

/-- `x <= c` for a numeric literal `c`; comparisons with NaN are false. -/
def leQ : JsNum → ℚ → Bool
  | nan, _ => false
  | inf, _ => false
  | ninf, _ => true
  | fin q, c => q ≤ c

/-- `x > c` for a numeric literal `c`; comparisons with NaN are false. -/
def gtQ : JsNum → ℚ → Bool
  | nan, _ => false
  | inf, _ => true
  | ninf, _ => false
  | fin q, c => c < q

/-- Unary minus. -/
def neg : JsNum → JsNum
  | nan => nan
  | inf => ninf
  | ninf => inf
  | fin q => fin (-q)

end JsNum

/-- A JavaScript value as it occurs in a request body / record field. -/
inductive JSVal where
  | undef
  | null
  | str (s : String)
  | num (x : JsNum)
  deriving DecidableEq, Repr

/-- JavaScript truthiness of a `JSVal` (`!v` is `!truthy v`). -/
def truthy : JSVal → Bool
  | .undef => false
  | .null => false
  | .str s => s ≠ ""
  | .num .nan => false
  | .num (.fin q) => q ≠ 0
  | .num _ => true

/-! ## Numeric string parsing (`parseFloat` and `Number` coercion) -/

/-- Numeric value of a list of decimal digits. -/
def digitsVal (ds : List Char) : ℕ :=
  ds.foldl (fun a c => a * 10 + (c.toNat - 48)) 0

/-- Parse a decimal mantissa `digits [. digits]` prefix; fails when no digit
is present on either side of the point.  Returns the value as a numerator
and a power-of-ten denominator (kept in `ℕ` so that witnesses evaluate in
the kernel), plus the rest of the input. -/
def decMantissa (cs : List Char) : Option (ℕ × ℕ × List Char) :=
  let p1 := cs.span Char.isDigit
  match p1.2 with
  | '.' :: rd =>
    let p2 := rd.span Char.isDigit
    if p1.1 = [] ∧ p2.1 = [] then none
    else some (digitsVal p1.1 * 10 ^ p2.1.length + digitsVal p2.1,
               10 ^ p2.1.length, p2.2)
  | _ => if p1.1 = [] then none else some (digitsVal p1.1, 1, p1.2)

/-- Parse an optional exponent `(e|E)(+|-)? digits` prefix.  When the `e` is
not followed by digits, nothing is consumed (matching `parseFloat("1e")`). -/
def decExp (cs : List Char) : ℤ × List Char :=
  match cs with
  | c :: r =>
    if c = 'e' ∨ c = 'E' then
      match r with
      | '+' :: r2 =>
        let p := r2.span Char.isDigit
        if p.1 = [] then (0, cs) else ((digitsVal p.1 : ℤ), p.2)
      | '-' :: r2 =>
        let p := r2.span Char.isDigit
        if p.1 = [] then (0, cs) else (-(digitsVal p.1 : ℤ), p.2)
      | _ =>
        let p := r.span Char.isDigit
        if p.1 = [] then (0, cs) else ((digitsVal p.1 : ℤ), p.2)
    else (0, cs)
  | [] => (0, cs)

/-- Parse the longest decimal-literal prefix `digits[.digits][exp]`; the
mantissa and the power-of-ten exponent are combined into one `mkRat`. -/
def parseDecPrefix (cs : List Char) : Option (ℚ × List Char) :=
  match decMantissa cs with
  | some (n, den, r) =>
    let p := decExp r
    if 0 ≤ p.1 then some (mkRat ((n * 10 ^ p.1.toNat : ℕ) : ℤ) den, p.2)
    else some (mkRat (n : ℤ) (den * 10 ^ (-p.1).toNat), p.2)
  | none => none

/-- Does `p` occur at the start of `cs`? -/
def strStarts : List Char → List Char → Bool
  | [], _ => true
  | _ :: _, [] => false
  | p :: ps, c :: cs => p = c && strStarts ps cs

/-- Whitespace skipped by `parseFloat` (the common ASCII whitespace). -/
def isWsChar (c : Char) : Bool := c = ' ' ∨ c = '\t' ∨ c = '\n' ∨ c = '\r'

/-- The sign-less part of `parseFloat`: an `Infinity` prefix or the longest
decimal-literal prefix; anything else is NaN. -/
def pfSignless (cs : List Char) : JsNum :=
  if strStarts "Infinity".toList cs then .inf
  else
    match parseDecPrefix cs with
    | some (q, _) => .fin q
    | none => .nan

/-- JavaScript `parseFloat` on a string: skip leading whitespace, optional
sign, then the longest numeric prefix (trailing garbage is ignored). -/
def parseFloatString (s : String) : JsNum :=
  match s.toList.dropWhile isWsChar with
  | '+' :: r => pfSignless r
  | '-' :: r => (pfSignless r).neg
  | cs => pfSignless cs

/-- JavaScript `parseFloat` applied to an arbitrary value (the argument is
first converted to a string: numbers round-trip, `undefined`/`null` give
`"undefined"`/`"null"`, which parse to NaN). -/
def jsParseFloat : JSVal → JsNum
  | .undef => .nan
  | .null => .nan
  | .num x => x
  | .str s => parseFloatString s

/-- Hexadecimal digit value (also covers decimal digits). -/
def hexVal (c : Char) : ℕ :=
  if c.isDigit then c.toNat - 48
  else if 'a' ≤ c ∧ c ≤ 'f' then c.toNat - 87
  else if 'A' ≤ c ∧ c ≤ 'F' then c.toNat - 55
  else 0

/-- Is `c` a hexadecimal digit? -/
def isHexD (c : Char) : Bool :=
  c.isDigit ∨ ('a' ≤ c ∧ c ≤ 'f') ∨ ('A' ≤ c ∧ c ≤ 'F')

/-- Is `c` an octal digit? -/
def isOctD (c : Char) : Bool := '0' ≤ c ∧ c ≤ '7'

/-- Is `c` a binary digit? -/
def isBinD (c : Char) : Bool := c = '0' ∨ c = '1'

/-- Value of a digit list in base `b`. -/
def radixVal (b : ℕ) (ds : List Char) : ℕ :=
  ds.foldl (fun a c => a * b + hexVal c) 0

/-- `String.prototype.trim`: strip leading and trailing whitespace. -/
def trimChars (cs : List Char) : List Char :=
  ((cs.dropWhile isWsChar).reverse.dropWhile isWsChar).reverse

/-- `s.trim()` on a string value. -/
def jsTrim (s : String) : String := ⟨trimChars s.toList⟩

/-- Sign-less part of the `Number(...)` string coercion: `Infinity` or a
decimal literal that must consume the whole string, else NaN. -/
def numSignless (cs : List Char) : JsNum :=
  if cs = "Infinity".toList then .inf
  else
    match parseDecPrefix cs with
    | some (q, []) => .fin q
    | _ => .nan

/-- `Number(s)` for a string: full trim, `""` is 0, optional sign with a
decimal literal or `Infinity`, or an unsigned `0x`/`0o`/`0b` literal. -/
def numberOfString (s : String) : JsNum :=
  match trimChars s.toList with
  | [] => .fin 0
  | '+' :: r => numSignless r
  | '-' :: r => (numSignless r).neg
  | '0' :: x :: r =>
    if (x = 'x' ∨ x = 'X') ∧ r ≠ [] ∧ r.all isHexD then .fin ((radixVal 16 r : ℕ) : ℚ)
    else if (x = 'o' ∨ x = 'O') ∧ r ≠ [] ∧ r.all isOctD then .fin ((radixVal 8 r : ℕ) : ℚ)
    else if (x = 'b' ∨ x = 'B') ∧ r ≠ [] ∧ r.all isBinD then .fin ((radixVal 2 r : ℕ) : ℚ)
    else numSignless ('0' :: x :: r)
  | cs => numSignless cs

/-- `Number(v)` — the coercion used by the global `isNaN`. -/
def toNumber : JSVal → JsNum
  | .undef => .nan
  | .null => .fin 0
  | .num x => x
  | .str s => numberOfString s

/-! ## Calendar dates -/

/-- Gregorian leap year. -/
def isLeap (y : ℤ) : Bool := (y % 4 == 0 && y % 100 != 0) || y % 400 == 0

/-- Days in a month (`0` for an invalid month number). -/
def daysInMonth (y : ℤ) : ℕ → ℕ
  | 1 => 31 | 3 => 31 | 5 => 31 | 7 => 31 | 8 => 31 | 10 => 31 | 12 => 31
  | 4 => 30 | 6 => 30 | 9 => 30 | 11 => 30
  | 2 => if isLeap y then 29 else 28
  | _ => 0

/-- Days since the Unix epoch of a civil date (Howard Hinnant's algorithm,
floor division throughout). -/
def daysFromCivil (y : ℤ) (m d : ℕ) : ℤ :=
  let y' := y - (if m ≤ 2 then 1 else 0)
  let era := Int.fdiv y' 400
  let yoe := y' - era * 400
  let mp := (m + 9) % 12
  let doy : ℤ := ((153 * mp + 2) / 5 : ℕ) + (d : ℤ) - 1
  let doe := yoe * 365 + Int.fdiv yoe 4 - Int.fdiv yoe 100 + doy
  era * 146097 + doe - 719468

/-- Split a string of the exact shape `\d{4}-\d{2}-\d{2}` into year, month
and day numbers. -/
def parseIsoDate (s : String) : Option (ℤ × ℕ × ℕ) :=
  match s.toList with
  | [y1, y2, y3, y4, '-', m1, m2, '-', d1, d2] =>
    if (y1.isDigit && y2.isDigit && y3.isDigit && y4.isDigit &&
        m1.isDigit && m2.isDigit && d1.isDigit && d2.isDigit) then
      some ((digitsVal [y1, y2, y3, y4] : ℤ), digitsVal [m1, m2], digitsVal [d1, d2])
    else none
  | _ => none

/-- `isValidDate` from `validators.js`: the strict `YYYY-MM-DD` regex plus
`new Date(dateStr)` being a valid date (the ISO parser rejects out-of-range
month/day components). -/
def isValidDate (s : String) : Bool :=
  match parseIsoDate s with
  | some (y, m, d) => 1 ≤ m && m ≤ 12 && 1 ≤ d && d ≤ daysInMonth y m
  | none => false

/-- Epoch milliseconds of `new Date("YYYY-MM-DD")` (midnight UTC).  Only
meaningful when `isValidDate` holds; the source only compares it under that
guard. -/
def dateMs (s : String) : ℤ :=
  match parseIsoDate s with
  | some (y, m, d) => daysFromCivil y m d * 86400000
  | none => 0

/-! ## The server validator and sanitizer (`backend/utils/validators.js`) -/

/-- The fixed category list `VALID_CATEGORIES`. -/
def VALID_CATEGORIES : List String :=
  ["Food", "Transport", "Entertainment", "Utilities", "Healthcare", "Shopping", "Other"]

/-- One `{field, message}` validation error. -/
structure FieldError where
  field : String
  message : String
  deriving DecidableEq, Repr

/-- The `{isValid, errors}` result of `validateExpense`. -/
structure ValidationResult where
  isValid : Bool
  errors : List FieldError
  deriving DecidableEq, Repr

/-- A candidate expense record: the four fields the pipeline looks at. -/
structure CandExpense where
  date : JSVal
  amount : JSVal
  category : JSVal
  description : JSVal
  deriving DecidableEq, Repr

/-- `isValidDate(expense.date)` as called on a `JSVal`: the regex coerces its
argument to a string, and the string form of a number never matches
`\d{4}-\d{2}-\d{2}`, so only string fields can pass. -/
def isValidDateJS : JSVal → Bool
  | .str s => isValidDate s
  | _ => false

/-- `new Date(expense.date).getTime()` under the `isValidDate` guard. -/
def jsDateMsJS : JSVal → ℤ
  | .str s => dateMs s
  | _ => 0

/-- Date rules of `validateExpense` (required / format / not in the future),
an `else if` chain producing at most one error.  `now` is the current epoch
milliseconds (`new Date()`). -/
def dateError (e : CandExpense) (now : ℤ) : Option FieldError :=
  if truthy e.date = false then some ⟨"date", "Date is required"⟩
  else if isValidDateJS e.date = false then
    some ⟨"date", "Invalid date format (use YYYY-MM-DD)"⟩
  else if now < jsDateMsJS e.date then some ⟨"date", "Date cannot be in the future"⟩
  else none

/-- Amount rules of `validateExpense` (required / numeric / `> 0` /
`<= 999999`), an `else if` chain producing at most one error. -/
def amountError (e : CandExpense) : Option FieldError :=
  if e.amount = .undef ∨ e.amount = .null ∨ e.amount = .str "" then
    some ⟨"amount", "Amount is required"⟩
  else if (toNumber e.amount).isNaN then some ⟨"amount", "Amount must be a number"⟩
  else if (jsParseFloat e.amount).leQ 0 then
    some ⟨"amount", "Amount must be greater than 0"⟩
  else if (jsParseFloat e.amount).gtQ 999999 then some ⟨"amount", "Amount too large"⟩
  else none

/-- `VALID_CATEGORIES.includes(category)` (strict equality: only a string can
be included). -/
def categoryIncluded : JSVal → Bool
  | .str s => VALID_CATEGORIES.contains s
  | _ => false

/-- Category rules of `validateExpense` (required / member of the fixed list,
whose error message reproduces the list verbatim). -/
def categoryError (e : CandExpense) : Option FieldError :=
  if truthy e.category = false then some ⟨"category", "Category is required"⟩
  else if categoryIncluded e.category = false then
    some ⟨"category", "Category must be one of: " ++ String.intercalate ", " VALID_CATEGORIES⟩
  else none

/-- Is the value a string? (`typeof v === 'string'`). -/
def isStrVal : JSVal → Bool
  | .str _ => true
  | _ => false

/-- `.length` of a string value (JS counts UTF-16 units; the claims only
exercise ASCII, where this agrees with `String.length`). -/
def strLenVal : JSVal → ℕ
  | .str s => s.length
  | _ => 0

/-- Description rules of `validateExpense`: optional, but when truthy it must
be a string of at most 255 characters. -/
def descriptionError (e : CandExpense) : Option FieldError :=
  if truthy e.description && !isStrVal e.description then
    some ⟨"description", "Description must be text"⟩
  else if truthy e.description && decide (255 < strLenVal e.description) then
    some ⟨"description", "Description too long (max 255 chars)"⟩
  else none

/-- `validateExpense` from `validators.js`: pushes the per-field errors in the
fixed order date, amount, category, description; `isValid` is
`errors.length === 0`. -/
def validateExpense (e : CandExpense) (now : ℤ) : ValidationResult :=
  let errors := (dateError e now).toList ++ (amountError e).toList ++
    (categoryError e).toList ++ (descriptionError e).toList
  ⟨errors.length == 0, errors⟩

/-- `v?.trim()`: `undefined`/`null` short-circuit to `undefined`; a string is
trimmed; calling `.trim()` on a number raises a `TypeError` (`none`). -/
def optTrim : JSVal → Option JSVal
  | .undef => some .undef
  | .null => some .undef
  | .str s => some (.str (jsTrim s))
  | .num _ => none

/-- `a || b`. -/
def jsOr (a b : JSVal) : JSVal := if truthy a then a else b

/-- `sanitizeExpense` from `validators.js`: trim the string fields, coerce
`amount` via `parseFloat`, and turn an empty/absent description into `null`.
`none` models the `TypeError` raised when a string field holds a number. -/
def sanitizeExpense (e : CandExpense) : Option CandExpense := do
  let d ← optTrim e.date
  let c ← optTrim e.category
  let ds ← optTrim e.description
  some ⟨d, .num (jsParseFloat e.amount), c, jsOr ds .null⟩

/-! ## The persistence store (`backend/models/database.js`) -/

/-- A stored row of the `expenses` table.  `amount` is the REAL column
(idealized as `ℚ`), `description` is nullable, `created_at` is the insertion
timestamp. -/
structure Row where
  id : ℕ
  date : String
  amount : ℚ
  category : String
  description : Option String
  created_at : ℤ
  deriving DecidableEq, Repr

/-- The single-table store.  `nextId` models `AUTOINCREMENT`: the next value
of the id sequence, never reused after a delete. -/
structure DB where
  rows : List Row
  nextId : ℕ
  deriving DecidableEq, Repr

/-- The server environment: the current instant (`new Date()`), in epoch ms. -/
structure Env where
  now : ℤ
  deriving DecidableEq, Repr

/-- `getExpenseById`: `SELECT * FROM expenses WHERE id = ?` — the row or an
explicit absence (`undefined`), never an error for a missing id. -/
def getExpenseById (id : ℕ) (db : DB) : Option Row :=
  db.rows.find? (fun r => r.id == id)

/-- `expense.description || null` as stored by the INSERT. -/
def descColumn : JSVal → Option String
  | .str s => if s = "" then none else some s
  | _ => none

/-- `addExpense`: INSERT the four fields, then read the new row back via
`getExpenseById(this.lastID)`.  The handlers only call this after validation,
which forces `date`/`category` to be strings and `amount` a finite number;
any other shape would violate the NOT NULL constraints (or store NaN as NULL)
and is modelled as the store's wrapped error. -/
def addExpense (s : CandExpense) (env : Env) (db : DB) :
    Except String (DB × Option Row) :=
  match s.date, s.amount, s.category with
  | .str d, .num (.fin q), .str c =>
    let row : Row := ⟨db.nextId, d, q, c, descColumn s.description, env.now⟩
    let db' : DB := ⟨db.rows ++ [row], db.nextId + 1⟩
    .ok (db', getExpenseById db.nextId db')
  | _, _, _ => .error "Failed to add expense: constraint violation"

/-- Description value written by the UPDATE (the sanitized record carries
`null` or a non-empty string here; any other shape is unreachable from the
controller and is stored as NULL). -/
def descUpdate : JSVal → Option String
  | .str s => some s
  | _ => none

/-- `updateExpense`: the controller always passes the full sanitized record,
so every allow-listed field is present and the `No valid fields to update`
branch cannot fire; the UPDATE sets all four columns, then the row is read
back (`undefined` when the id matched no row — the UPDATE itself does not
error on zero affected rows). -/
def updateExpense (id : ℕ) (u : CandExpense) (db : DB) :
    Except String (DB × Option Row) :=
  match u.date, u.amount, u.category with
  | .str d, .num (.fin q), .str c =>
    let db' : DB :=
      ⟨db.rows.map (fun r =>
        if r.id = id then { r with date := d, amount := q, category := c,
                                   description := descUpdate u.description }
        else r), db.nextId⟩
    .ok (db', getExpenseById id db')
  | _, _, _ => .error "Failed to update expense: constraint violation"

/-- `deleteExpense`: `DELETE FROM expenses WHERE id = ?`; rejects with a
"not found" error when `this.changes === 0`, resolves `true` otherwise. -/
def deleteExpense (id : ℕ) (db : DB) : Except String (Bool × DB) :=
  let remaining := db.rows.filter (fun r => r.id ≠ id)
  if remaining.length = db.rows.length then
    .error ("Expense with ID " ++ toString id ++ " not found")
  else .ok (true, ⟨remaining, db.nextId⟩)

/-- The `listAll` filter argument: the query-string parameters, each absent
or a string. -/
structure FilterOptions where
  category : Option String
  minAmount : Option String
  maxAmount : Option String
  deriving DecidableEq, Repr

/-- Truthiness of an optional query-string value (`if (options.x)`). -/
def truthyQ : Option String → Bool
  | some s => s ≠ ""
  | none => false

/-- SQLite's text→numeric conversion used when a TEXT operand meets the REAL
`amount` column: the longest numeric prefix, `0` when there is none
(non-finite shapes do not arise from numeric text). -/
def sqliteNum (s : String) : ℚ :=
  match parseFloatString s with
  | .fin q => q
  | _ => 0

/-- The WHERE clause built by `getAllExpenses`: a category equality when
`options.category` is truthy, and `amount BETWEEN ? AND ?` when **both**
`options.minAmount` and `options.maxAmount` are truthy. -/
def rowMatches (opts : FilterOptions) (r : Row) : Bool :=
  (match opts.category with
   | some c => if c ≠ "" then r.category == c else true
   | none => true) &&
  (if truthyQ opts.minAmount && truthyQ opts.maxAmount then
     decide (sqliteNum (opts.minAmount.getD "") ≤ r.amount) &&
     decide (r.amount ≤ sqliteNum (opts.maxAmount.getD ""))
   else true)

/-- Stable insertion (descending by the TEXT `date` column) for
`ORDER BY date DESC`; ties keep insertion order. -/
def insertDateDesc (r : Row) : List Row → List Row
  | [] => [r]
  | t :: ts => if t.date ≤ r.date then r :: t :: ts else t :: insertDateDesc r ts

/-- `ORDER BY date DESC` over a row list (stable). -/
def sortDateDesc (rs : List Row) : List Row := rs.foldr insertDateDesc []

/-- `getAllExpenses`: filter then sort; resolves `rows || []`, never an error
for an empty result. -/
def getAllExpenses (opts : FilterOptions) (db : DB) : List Row :=
  sortDateDesc (db.rows.filter (rowMatches opts))

/-- Half-away-from-zero rounding to an integer. -/
def roundHalfAway (q : ℚ) : ℤ :=
  if 0 ≤ q then ⌊q + 1 / 2⌋ else -⌊-q + 1 / 2⌋

/-- SQLite `ROUND(x, 2)`. -/
def round2 (q : ℚ) : ℚ := (roundHalfAway (q * 100) : ℚ) / 100

/-- Sum of the amounts of a row list (`SUM(amount)` over the group). -/
def sumAmounts (rs : List Row) : ℚ := (rs.map Row.amount).sum

/-- One result row of the summary query.  `totalAmount`/`categoryTotal` are
`NULL` (`none`) when `SUM` aggregates zero rows. -/
structure SummaryRow where
  totalCount : ℕ
  totalAmount : Option ℚ
  category : String
  categoryTotal : Option ℚ
  deriving DecidableEq, Repr

/-- Ascending insertion for the GROUP BY output order. -/
def insertAsc (s : String) : List String → List String
  | [] => [s]
  | t :: ts => if s ≤ t then s :: t :: ts else t :: insertAsc s ts

/-- Sort a list of strings ascending. -/
def sortStrings (l : List String) : List String := l.foldr insertAsc []

/-- `getExpenseSummary`: the GROUP BY part (one row per category present,
in sorted order) followed by the ungrouped `'TOTAL'` row via UNION ALL.
An aggregate query without GROUP BY always yields exactly one row; over an
empty table its `COUNT(*)` is 0 and its `SUM`s are NULL. -/
def getExpenseSummary (db : DB) : List SummaryRow :=
  let cats := sortStrings (db.rows.map Row.category).dedup
  let catRows := cats.map (fun c =>
    let g := db.rows.filter (fun r => r.category == c)
    SummaryRow.mk g.length (some (sumAmounts g)) c (some (round2 (sumAmounts g))))
  let totalRow : SummaryRow :=
    ⟨db.rows.length,
     if db.rows.isEmpty then none else some (sumAmounts db.rows),
     "TOTAL",
     if db.rows.isEmpty then none else some (round2 (sumAmounts db.rows))⟩
  catRows ++ [totalRow]

/-! ## Request handlers (`backend/controllers/expenseController.js`) and the
error middleware (`backend/middleware/errorHandler.js`) -/

/-- A thrown server error as the controllers build it: a message plus the
optional `statusCode` / `code` / `details` properties. -/
structure ApiError where
  message : String
  statusCode : Option ℕ
  code : Option String
  details : Option (List FieldError)
  deriving DecidableEq, Repr

/-- The `VALIDATION_ERROR` thrown on a failed validation. -/
def validationError (errors : List FieldError) : ApiError :=
  ⟨"Validation failed", some 400, some "VALIDATION_ERROR", some errors⟩

/-- The `NOT_FOUND` error thrown for an absent id. -/
def notFoundError (id : ℕ) : ApiError :=
  ⟨"Expense with ID " ++ toString id ++ " not found", some 404, some "NOT_FOUND", none⟩

/-- A runtime `TypeError` (no `statusCode`/`code` properties). -/
def typeErrorSan : ApiError := ⟨"TypeError: trim is not a function", none, none, none⟩

/-- A wrapped store fault (plain `Error`, no `statusCode`/`code`). -/
def storeError (m : String) : ApiError := ⟨m, none, none, none⟩

/-- The uniform error envelope produced by `errorHandler`. -/
structure ErrorEnvelope where
  status : ℕ
  code : String
  message : String
  details : Option (List FieldError)
  deriving DecidableEq, Repr

/-- `errorHandler` middleware: defaults `statusCode` to 500 and `code` to
`INTERNAL_SERVER_ERROR`; `details` are exposed only in development builds. -/
def errorHandler (e : ApiError) (dev : Bool) : ErrorEnvelope :=
  ⟨e.statusCode.getD 500,
   e.code.getD "INTERNAL_SERVER_ERROR",
   if e.message = "" then "An unexpected error occurred" else e.message,
   if dev then some (e.details.getD []) else none⟩

/-- A request body: each field either absent or a JavaScript value (a spread
copies own properties, including ones explicitly set to `undefined`). -/
structure RawBody where
  date : Option JSVal
  amount : Option JSVal
  category : Option JSVal
  description : Option JSVal
  deriving DecidableEq, Repr

/-- The candidate record a bare body denotes (absent fields read as
`undefined`). -/
def toRaw (b : RawBody) : CandExpense :=
  ⟨b.date.getD .undef, b.amount.getD .undef, b.category.getD .undef,
   b.description.getD .undef⟩

/-- The stored description as a JavaScript value (SQLite NULL reads back as
`null`). -/
def descJS : Option String → JSVal
  | some s => .str s
  | none => .null

/-- `{ ...existing, ...req.body }` restricted to the four sanitized fields:
body fields override the stored row exactly when present. -/
def mergeRow (r : Row) (b : RawBody) : CandExpense :=
  ⟨b.date.getD (.str r.date),
   b.amount.getD (.num (.fin r.amount)),
   b.category.getD (.str r.category),
   b.description.getD (descJS r.description)⟩

/-- `createExpense` handler: sanitize → validate (throw `VALIDATION_ERROR`
with the full error list when invalid) → `addExpense` → 201 with the stored
record.  The state is threaded explicitly; an error leaves it unchanged. -/
def createExpense (body : RawBody) (env : Env) (db : DB) :
    Except ApiError (ℕ × Option Row) × DB :=
  match sanitizeExpense (toRaw body) with
  | none => (.error typeErrorSan, db)
  | some s =>
    let v := validateExpense s env.now
    if v.isValid then
      match addExpense s env db with
      | .ok (db', row) => (.ok (201, row), db')
      | .error m => (.error (storeError m), db)
    else (.error (validationError v.errors), db)

/-- `updateExpenseData` handler: existence check (404) → merge the body onto
the stored row → sanitize → validate the merged record as a whole (400) →
`updateExpense` → 200 with the updated record. -/
def updateExpenseData (id : ℕ) (body : RawBody) (env : Env) (db : DB) :
    Except ApiError (ℕ × Option Row) × DB :=
  match getExpenseById id db with
  | none => (.error (notFoundError id), db)
  | some existing =>
    match sanitizeExpense (mergeRow existing body) with
    | none => (.error typeErrorSan, db)
    | some u =>
      let v := validateExpense u env.now
      if v.isValid then
        match updateExpense id u db with
        | .ok (db', row) => (.ok (200, row), db')
        | .error m => (.error (storeError m), db)
      else (.error (validationError v.errors), db)

/-- `removeExpense` handler: existence check (404) → `deleteExpense` → 200
with the deleted id. -/
def removeExpense (id : ℕ) (db : DB) : Except ApiError (ℕ × ℕ) × DB :=
  match getExpenseById id db with
  | none => (.error (notFoundError id), db)
  | some _ =>
    match deleteExpense id db with
    | .ok (_, db') => (.ok (200, id), db')
    | .error m => (.error (storeError m), db)

/-! ## Client form validation (`utils.js`) -/

/-- The current instant and environment of a JavaScript runtime: the current
UTC day number, the milliseconds elapsed within that UTC day, and the local
timezone offset east of UTC in minutes. -/
structure Clock where
  utcDay : ℤ
  msInDay : ℤ
  tz : ℤ
  deriving DecidableEq, Repr

/-- `Date.now()` / `new Date().getTime()`. -/
def nowMs (c : Clock) : ℤ := c.utcDay * 86400000 + c.msInDay

/-- The current local calendar day number. -/
def localDay (c : Clock) : ℤ := Int.fdiv (nowMs c + c.tz * 60000) 86400000

/-- `today.setHours(0, 0, 0, 0)`: the timestamp of the current day's
midnight in local time. -/
def localMidnightMs (c : Clock) : ℤ := localDay c * 86400000 - c.tz * 60000

/-- `new Date(s).getTime()` for the date-only strings produced by the date
input (`<input type="date">` yields `""` or strict `YYYY-MM-DD`): a valid
ISO date parses to midnight UTC, anything else is an Invalid Date (`none`,
whose comparisons are all false). -/
def jsDateOnlyMs (s : String) : Option ℤ :=
  if isValidDate s then some (dateMs s) else none

/-- The client's `expenseDate > today` test. -/
def dateFutureClient (d : String) (c : Clock) : Bool :=
  match jsDateOnlyMs d with
  | some ms => localMidnightMs c < ms
  | none => false

/-- The data read from the form inputs — always strings. -/
structure FormData where
  date : String
  amount : String
  category : String
  description : String
  deriving DecidableEq, Repr

/-- `validateExpenseForm` from `utils.js`: returns the first failing rule's
message, or `null` when the form passes. -/
def validateExpenseForm (fd : FormData) (c : Clock) : Option String :=
  if fd.date = "" then some "Date is required"
  else if dateFutureClient fd.date c then some "Date cannot be in the future"
  else if fd.amount = "" then some "Amount is required"
  else if (parseFloatString fd.amount).isNaN then some "Amount must be a valid number"
  else if (parseFloatString fd.amount).leQ 0 then some "Amount must be greater than $0.00"
  else if (parseFloatString fd.amount).gtQ 999999 then some "Amount is too large"
  else if fd.category = "" then some "Category is required"
  else none

/-! ## Client API layer (`api.js`) -/

/-- The `error` object inside the server's error envelope, as the client
reads it (each property possibly absent). -/
structure ErrInfo where
  code : Option String
  message : Option String
  details : Option (List FieldError)
  deriving DecidableEq, Repr

/-- A parsed JSON response body: `errorData.error` may be absent. -/
structure JsonBody where
  error : Option ErrInfo
  deriving DecidableEq, Repr

/-- A completed HTTP response: status, status text, and the JSON body when
`response.json()` succeeds (`none` models a non-JSON body). -/
structure HttpResponse where
  status : ℕ
  statusText : String
  jsonBody : Option JsonBody
  deriving DecidableEq, Repr

/-- What `fetch` produced: a network failure before any response, or a
completed response. -/
inductive FetchOutcome where
  | netFail
  | resp (r : HttpResponse)
  deriving DecidableEq, Repr

/-- A thrown client-side `Error` with its optional properties. -/
structure JsError where
  message : String
  statusCode : Option ℕ
  code : Option String
  details : Option (List FieldError)
  deriving DecidableEq, Repr

/-- `handleNetworkError`: the distinct generic "network error" kind (it
carries no `statusCode`). -/
def networkError : JsError :=
  ⟨"Network error. Check your internet connection.", none, none, none⟩

/-- `handleErrorResponse`: build an application error from the response's
JSON body (attaching `statusCode`, `code`, `details`); when the body is not
JSON, a bare generic error without a `statusCode` property. -/
def handleErrorResponse (r : HttpResponse) : JsError :=
  match r.jsonBody with
  | some body =>
    ⟨((body.error.bind ErrInfo.message).getD "An error occurred"),
     some r.status,
     body.error.bind ErrInfo.code,
     body.error.bind ErrInfo.details⟩
  | none =>
    ⟨"HTTP " ++ toString r.status ++ ": " ++ r.statusText, none, none, none⟩

/-- `response.ok`: status in the 2xx range. -/
def responseOk (status : ℕ) : Bool := 200 ≤ status && status ≤ 299

/-- `fetchAPI`: on a non-OK response, throw `handleErrorResponse`'s error;
the surrounding catch rethrows errors that carry a `statusCode` and converts
everything else (including a failed `response.json()`) into the generic
network error. -/
def fetchAPI (o : FetchOutcome) : Except JsError JsonBody :=
  match o with
  | .netFail => .error networkError
  | .resp r =>
    if responseOk r.status then
      match r.jsonBody with
      | some data => .ok data
      | none => .error networkError
    else
      let e := handleErrorResponse r
      if e.statusCode.isSome then .error e else .error networkError

/-! ## Helper lemmas about the validator -/

theorem dateError_field {e : CandExpense} {now : ℤ} {x : FieldError}
    (h : dateError e now = some x) : x.field = "date" := by
  unfold dateError at h
  repeat' split at h
  all_goals (try exact Option.noConfusion h)
  all_goals (injection h with h; subst h; rfl)

theorem amountError_field {e : CandExpense} {x : FieldError}
    (h : amountError e = some x) : x.field = "amount" := by
  unfold amountError at h
  repeat' split at h
  all_goals (try exact Option.noConfusion h)
  all_goals (injection h with h; subst h; rfl)

theorem categoryError_field {e : CandExpense} {x : FieldError}
    (h : categoryError e = some x) : x.field = "category" := by
  unfold categoryError at h
  repeat' split at h
  all_goals (try exact Option.noConfusion h)
  all_goals (injection h with h; subst h; rfl)

theorem descriptionError_field {e : CandExpense} {x : FieldError}
    (h : descriptionError e = some x) : x.field = "description" := by
  unfold descriptionError at h
  repeat' split at h
  all_goals (try exact Option.noConfusion h)
  all_goals (injection h with h; subst h; rfl)

theorem optErr_sublist (o : Option FieldError) (f : String)
    (h : ∀ x, o = some x → x.field = f) :
    List.Sublist (o.toList.map FieldError.field) [f] := by
  cases o with
  | none => simp
  | some x => simp [h x rfl]

theorem validateExpense_isValid_iff (e : CandExpense) (now : ℤ) :
    (validateExpense e now).isValid = true ↔ (validateExpense e now).errors = [] := by
  simp [validateExpense, List.length_eq_zero]

theorem validate_fields_sublist (e : CandExpense) (now : ℤ) :
    List.Sublist ((validateExpense e now).errors.map FieldError.field)
      ["date", "amount", "category", "description"] := by
  have h := List.Sublist.append
    (optErr_sublist (dateError e now) "date" (fun _ hx => dateError_field hx))
    (List.Sublist.append
      (optErr_sublist (amountError e) "amount" (fun _ hx => amountError_field hx))
      (List.Sublist.append
        (optErr_sublist (categoryError e) "category" (fun _ hx => categoryError_field hx))
        (optErr_sublist (descriptionError e) "description"
          (fun _ hx => descriptionError_field hx))))
  simpa [validateExpense, List.map_append] using h

/-- C10: for every candidate record, `validateExpense` returns at most one
error entry per field (the `else if` chains short-circuit within a field),
the entries appear in the fixed field order date, amount, category,
description, and `isValid` holds exactly when the error list is empty. -/
theorem validate_errors_shape (e : CandExpense) (now : ℤ) :
    List.Sublist ((validateExpense e now).errors.map FieldError.field)
      ["date", "amount", "category", "description"] ∧
    (∀ f : String, ((validateExpense e now).errors.map FieldError.field).count f ≤ 1) ∧
    ((validateExpense e now).isValid = true ↔ (validateExpense e now).errors = []) :=
  ⟨validate_fields_sublist e now,
   fun f => le_trans ((validate_fields_sublist e now).count_le f)
     (List.nodup_iff_count_le_one.mp (by decide) f),
   validateExpense_isValid_iff e now⟩

theorem isValid_false_of_mem {e : CandExpense} {now : ℤ} {err : FieldError}
    (h : err ∈ (validateExpense e now).errors) :
    (validateExpense e now).isValid = false := by
  have hne : (validateExpense e now).errors ≠ [] := by
    intro hnil; rw [hnil] at h; exact absurd h (List.not_mem_nil err)
  rcases hb : (validateExpense e now).isValid with _ | _
  · rfl
  · exact absurd ((validateExpense_isValid_iff e now).mp hb) hne

theorem sanitize_amount {e s : CandExpense} (h : sanitizeExpense e = some s) :
    s.amount = .num (jsParseFloat e.amount) := by
  unfold sanitizeExpense at h
  rcases h1 : optTrim e.date with _ | d <;> rw [h1] at h <;>
    rcases h2 : optTrim e.category with _ | c <;> try rw [h2] at h
  all_goals rcases h3 : optTrim e.description with _ | ds <;> try rw [h3] at h
  all_goals simp_all
  exact h.symm ▸ rfl

theorem amountError_mem_of_out_of_range (now : ℤ) {s : CandExpense} {x : JsNum}
    (hx : s.amount = .num x) (hamt : x.leQ 0 = true ∨ x.gtQ 999999 = true) :
    ∃ err ∈ (validateExpense s now).errors, err.field = "amount" := by
  have hne : ∃ err, amountError s = some err := by
    unfold amountError
    rw [hx]
    rw [if_neg (by simp : ¬(JSVal.num x = JSVal.undef ∨ JSVal.num x = JSVal.null ∨
      JSVal.num x = JSVal.str ""))]
    by_cases h2 : (toNumber (JSVal.num x)).isNaN = true
    · rw [if_pos h2]; exact ⟨_, rfl⟩
    · rw [if_neg h2]
      by_cases h3 : (jsParseFloat (JSVal.num x)).leQ 0 = true
      · rw [if_pos h3]; exact ⟨_, rfl⟩
      · rw [if_neg h3]
        by_cases h4 : (jsParseFloat (JSVal.num x)).gtQ 999999 = true
        · rw [if_pos h4]; exact ⟨_, rfl⟩
        · exfalso
          rcases hamt with h | h
          · exact h3 (show (jsParseFloat (JSVal.num x)).leQ 0 = true from h)
          · exact h4 (show (jsParseFloat (JSVal.num x)).gtQ 999999 = true from h)
  obtain ⟨err, herr⟩ := hne
  refine ⟨err, ?_, amountError_field herr⟩
  simp [validateExpense, herr]

/-- C3: a sanitized record whose amount is `<= 0` or `> 999999` always gets
an amount-field validation error, and the create handler answers with
`VALIDATION_ERROR` (HTTP 400 through the error middleware) leaving the store
untouched. -/
theorem amount_out_of_range_rejected (body : RawBody) (env : Env) (db : DB)
    (s : CandExpense) (x : JsNum) (dev : Bool)
    (hsan : sanitizeExpense (toRaw body) = some s)
    (hx : s.amount = .num x)
    (hamt : x.leQ 0 = true ∨ x.gtQ 999999 = true) :
    (∃ err ∈ (validateExpense s env.now).errors, err.field = "amount") ∧
    ∃ e, createExpense body env db = (.error e, db) ∧
      e.code = some "VALIDATION_ERROR" ∧ (errorHandler e dev).status = 400 := by
  obtain ⟨err, hmem, hfield⟩ := amountError_mem_of_out_of_range env.now hx hamt
  refine ⟨⟨err, hmem, hfield⟩, validationError (validateExpense s env.now).errors, ?_, rfl, rfl⟩
  unfold createExpense
  rw [hsan]
  simp only [isValid_false_of_mem hmem, Bool.false_eq_true, if_false]

/-- Witness for `amount_out_of_range_rejected` at a concrete record with a
negative amount. -/
theorem amount_out_of_range_rejected_witness :
    (∃ err ∈ (validateExpense ⟨.str "2024-01-15", .num (.fin (-5)), .str "Food", .null⟩
        (1705276800001 : ℤ)).errors, err.field = "amount") ∧
    ∃ e, createExpense ⟨some (.str "2024-01-15"), some (.str "-5"), some (.str "Food"), none⟩
        ⟨1705276800001⟩ ⟨[], 1⟩ = (.error e, ⟨[], 1⟩) ∧
      e.code = some "VALIDATION_ERROR" ∧ (errorHandler e true).status = 400 :=
  amount_out_of_range_rejected _ ⟨1705276800001⟩ ⟨[], 1⟩
    ⟨.str "2024-01-15", .num (.fin (-5)), .str "Food", .null⟩ (.fin (-5)) true
    (by decide) rfl (Or.inl (by decide))

/-- C9: when the raw amount is non-numeric (its `parseFloat` is NaN), the
sanitizer stores NaN in the amount field, the validator reports "Amount must
be a number" and fails, and the create handler never inserts: the store is
returned unchanged with an error result. -/
theorem nonnumeric_amount_never_stored (body : RawBody) (env : Env) (db : DB)
    (h : jsParseFloat (toRaw body).amount = .nan) :
    (∀ s, sanitizeExpense (toRaw body) = some s →
      s.amount = .num .nan ∧
      FieldError.mk "amount" "Amount must be a number" ∈ (validateExpense s env.now).errors ∧
      (validateExpense s env.now).isValid = false) ∧
    (createExpense body env db).2 = db ∧
    ∃ e, (createExpense body env db).1 = .error e := by
  have hs : ∀ s, sanitizeExpense (toRaw body) = some s →
      s.amount = .num .nan ∧
      FieldError.mk "amount" "Amount must be a number" ∈ (validateExpense s env.now).errors ∧
      (validateExpense s env.now).isValid = false := by
    intro s hsan
    have ha : s.amount = .num .nan := by rw [sanitize_amount hsan, h]
    have herr : amountError s = some ⟨"amount", "Amount must be a number"⟩ := by
      unfold amountError
      rw [ha]
      rw [if_neg (by simp : ¬(JSVal.num JsNum.nan = JSVal.undef ∨
        JSVal.num JsNum.nan = JSVal.null ∨ JSVal.num JsNum.nan = JSVal.str ""))]
      rw [if_pos (by rfl)]
    have hmem : FieldError.mk "amount" "Amount must be a number" ∈
        (validateExpense s env.now).errors := by
      simp [validateExpense, herr]
    exact ⟨ha, hmem, isValid_false_of_mem hmem⟩
  refine ⟨hs, ?_⟩
  unfold createExpense
  rcases hsan : sanitizeExpense (toRaw body) with _ | s
  · exact ⟨rfl, _, rfl⟩
  · dsimp only
    simp only [isValid_false_of_mem (hs s hsan).2.1, Bool.false_eq_true, if_false]
    exact ⟨trivial, _, rfl⟩

/-- Witness for `nonnumeric_amount_never_stored` at a record whose amount is
the non-numeric string `"abc"`. -/
theorem nonnumeric_amount_never_stored_witness :
    (∀ s, sanitizeExpense (toRaw ⟨some (.str "2024-01-15"), some (.str "abc"),
        some (.str "Food"), none⟩) = some s →
      s.amount = .num .nan ∧
      FieldError.mk "amount" "Amount must be a number" ∈
        (validateExpense s (1705276800001 : ℤ)).errors ∧
      (validateExpense s (1705276800001 : ℤ)).isValid = false) ∧
    (createExpense ⟨some (.str "2024-01-15"), some (.str "abc"), some (.str "Food"), none⟩
      ⟨1705276800001⟩ ⟨[], 1⟩).2 = ⟨[], 1⟩ ∧
    ∃ e, (createExpense ⟨some (.str "2024-01-15"), some (.str "abc"), some (.str "Food"), none⟩
      ⟨1705276800001⟩ ⟨[], 1⟩).1 = .error e :=
  nonnumeric_amount_never_stored _ ⟨1705276800001⟩ ⟨[], 1⟩ (by decide)

theorem filter_length_eq_iff {α : Type} (p : α → Bool) (l : List α) :
    (l.filter p).length = l.length ↔ ∀ a ∈ l, p a = true :=
  ⟨fun h => List.filter_eq_self.mp ((List.filter_sublist l).eq_of_length h),
   fun h => by rw [List.filter_eq_self.mpr h]⟩

/-- C5: deleting an id that matches no stored row fails at both layers: the
store's `deleteExpense` rejects with a "not found" error exactly when zero
rows are affected (and resolves `true` otherwise), and the `removeExpense`
handler answers `NOT_FOUND` with HTTP 404, never a silent success. -/
theorem delete_missing_not_found (id : ℕ) (db : DB) (dev : Bool) :
    (getExpenseById id db = none ↔ (∃ m, deleteExpense id db = .error m)) ∧
    (getExpenseById id db = none →
      deleteExpense id db = .error ("Expense with ID " ++ toString id ++ " not found") ∧
      removeExpense id db = (.error (notFoundError id), db) ∧
      (errorHandler (notFoundError id) dev).status = 404 ∧
      (errorHandler (notFoundError id) dev).code = "NOT_FOUND") ∧
    (∀ r, getExpenseById id db = some r →
      ∃ db2, deleteExpense id db = .ok (true, db2)) := by
  have hiff : (db.rows.filter (fun r => r.id ≠ id)).length = db.rows.length ↔
      getExpenseById id db = none := by
    rw [filter_length_eq_iff]
    unfold getExpenseById
    rw [List.find?_eq_none]
    constructor
    · intro h r hr hpr
      have := h r hr
      simp at this hpr
      exact this hpr
    · intro h r hr
      have := h r hr
      simp at this ⊢
      exact this
  refine ⟨?_, ?_, ?_⟩
  · constructor
    · intro hnone
      refine ⟨"Expense with ID " ++ toString id ++ " not found", ?_⟩
      unfold deleteExpense
      rw [if_pos (hiff.mpr hnone)]
    · rintro ⟨m, hm⟩
      by_contra hne
      rcases hs : getExpenseById id db with _ | r
      · exact hne hs
      · unfold deleteExpense at hm
        rw [if_neg (fun hlen => by
          rw [hs] at hiff
          exact Option.noConfusion (hiff.mp hlen))] at hm
        exact Except.noConfusion hm
  · intro hnone
    refine ⟨?_, ?_, rfl, rfl⟩
    · unfold deleteExpense
      rw [if_pos (hiff.mpr hnone)]
    · unfold removeExpense
      rw [hnone]
  · intro r hr
    refine ⟨⟨db.rows.filter (fun x => x.id ≠ id), db.nextId⟩, ?_⟩
    unfold deleteExpense
    rw [if_neg (fun hlen => by
      rw [hr] at hiff
      exact Option.noConfusion (hiff.mp hlen))]

/-- Witness for `delete_missing_not_found`: a missing id on an empty store
and a present id on a one-row store. -/
theorem delete_missing_not_found_witness :
    (deleteExpense 1 ⟨[], 5⟩ = .error ("Expense with ID " ++ toString 1 ++ " not found") ∧
     removeExpense 1 ⟨[], 5⟩ = (.error (notFoundError 1), ⟨[], 5⟩) ∧
     (errorHandler (notFoundError 1) false).status = 404 ∧
     (errorHandler (notFoundError 1) false).code = "NOT_FOUND") ∧
    ∃ db2, deleteExpense 2 ⟨[⟨2, "2024-01-15", 5, "Food", none, 0⟩], 3⟩ = .ok (true, db2) :=
  ⟨(delete_missing_not_found 1 ⟨[], 5⟩ false).2.1 rfl,
   (delete_missing_not_found 2 ⟨[⟨2, "2024-01-15", 5, "Food", none, 0⟩], 3⟩ false).2.2
     ⟨2, "2024-01-15", 5, "Food", none, 0⟩ (by decide)⟩

/-- C6: `getAllExpenses` applies the `amount BETWEEN` condition exactly when
both `minAmount` and `maxAmount` are present (truthy); with at most one of
them present the result is identical to querying with no amount bounds at
all; and an unmatched filter yields the empty list, not an error. -/
theorem listAll_amount_range_iff (db : DB) (opts : FilterOptions) :
    (truthyQ opts.minAmount = true → truthyQ opts.maxAmount = true →
      getAllExpenses opts db = sortDateDesc (db.rows.filter (fun r =>
        (match opts.category with
         | some c => if c ≠ "" then r.category == c else true
         | none => true) &&
        (decide (sqliteNum (opts.minAmount.getD "") ≤ r.amount) &&
         decide (r.amount ≤ sqliteNum (opts.maxAmount.getD "")))))) ∧
    (truthyQ opts.minAmount = false ∨ truthyQ opts.maxAmount = false →
      getAllExpenses opts db = getAllExpenses ⟨opts.category, none, none⟩ db) ∧
    (db.rows.filter (rowMatches opts) = [] → getAllExpenses opts db = []) := by
  refine ⟨?_, ?_, ?_⟩
  · intro h1 h2
    unfold getAllExpenses
    congr 1
    apply List.filter_congr
    intro r _
    unfold rowMatches
    rw [h1, h2]
    rfl
  · intro h
    unfold getAllExpenses
    congr 1
    apply List.filter_congr
    intro r _
    unfold rowMatches
    have hcond : (truthyQ opts.minAmount && truthyQ opts.maxAmount) = false := by
      rcases h with h | h <;> rw [h] <;> simp
    rw [hcond]
    simp [truthyQ]
  · intro h
    unfold getAllExpenses
    rw [h]
    rfl

/-- Witness for `listAll_amount_range_iff`: a two-row store queried with both
bounds, with only a lower bound, and with an unmatched category. -/
theorem listAll_amount_range_iff_witness :
    (getAllExpenses ⟨none, some "10", some "100"⟩
        ⟨[⟨1, "2024-01-10", 5, "Food", none, 0⟩,
          ⟨2, "2024-01-11", 50, "Transport", none, 0⟩], 3⟩ =
      sortDateDesc (([⟨1, "2024-01-10", 5, "Food", none, 0⟩,
          ⟨2, "2024-01-11", 50, "Transport", none, 0⟩] : List Row).filter (fun r =>
        (match (none : Option String) with
         | some c => if c ≠ "" then r.category == c else true
         | none => true) &&
        (decide (sqliteNum ((some "10").getD "") ≤ r.amount) &&
         decide (r.amount ≤ sqliteNum ((some "100").getD "")))))) ∧
    (getAllExpenses ⟨some "Food", some "10", none⟩
        ⟨[⟨1, "2024-01-10", 5, "Food", none, 0⟩,
          ⟨2, "2024-01-11", 50, "Transport", none, 0⟩], 3⟩ =
      getAllExpenses ⟨some "Food", none, none⟩
        ⟨[⟨1, "2024-01-10", 5, "Food", none, 0⟩,
          ⟨2, "2024-01-11", 50, "Transport", none, 0⟩], 3⟩) ∧
    (getAllExpenses ⟨some "Healthcare", none, none⟩
        ⟨[⟨1, "2024-01-10", 5, "Food", none, 0⟩,
          ⟨2, "2024-01-11", 50, "Transport", none, 0⟩], 3⟩ = []) :=
  ⟨(listAll_amount_range_iff _ ⟨none, some "10", some "100"⟩).1 rfl rfl,
   (listAll_amount_range_iff _ ⟨some "Food", some "10", none⟩).2.1 (Or.inr rfl),
   (listAll_amount_range_iff _ ⟨some "Healthcare", none, none⟩).2.2 (by decide)⟩

/-- C2: an update on an existing id whose merged, sanitized record fails
validation is rejected with `VALIDATION_ERROR` (HTTP 400 through the error
middleware) and the store is left unchanged — the merged record is validated
as a whole, so this holds also when the violating field was not part of the
update payload. -/
theorem update_merged_invalid_rejected (id : ℕ) (body : RawBody) (env : Env) (db : DB)
    (existing : Row) (u : CandExpense) (dev : Bool)
    (hex : getExpenseById id db = some existing)
    (hsan : sanitizeExpense (mergeRow existing body) = some u)
    (hval : (validateExpense u env.now).isValid = false) :
    updateExpenseData id body env db =
      (.error (validationError (validateExpense u env.now).errors), db) ∧
    (errorHandler (validationError (validateExpense u env.now).errors) dev).status = 400 ∧
    (validationError (validateExpense u env.now).errors).code = some "VALIDATION_ERROR" := by
  refine ⟨?_, rfl, rfl⟩
  unfold updateExpenseData
  rw [hex]
  dsimp only
  rw [hsan]
  dsimp only
  simp only [hval, Bool.false_eq_true, if_false]

/-- Witness for `update_merged_invalid_rejected`: the stored row's date is in
the future of the (earlier) current instant, so an update touching only the
amount is rejected — the violating date was not in the payload. -/
theorem update_merged_invalid_rejected_witness :
    updateExpenseData 1 ⟨none, some (.str "60"), none, none⟩ ⟨1704672000000⟩
        ⟨[⟨1, "2024-01-15", 50, "Food", none, 0⟩], 2⟩ =
      (.error (validationError (validateExpense
        ⟨.str "2024-01-15", .num (.fin 60), .str "Food", .null⟩ (1704672000000 : ℤ)).errors),
       ⟨[⟨1, "2024-01-15", 50, "Food", none, 0⟩], 2⟩) ∧
    (errorHandler (validationError (validateExpense
        ⟨.str "2024-01-15", .num (.fin 60), .str "Food", .null⟩ (1704672000000 : ℤ)).errors)
      true).status = 400 ∧
    (validationError (validateExpense
        ⟨.str "2024-01-15", .num (.fin 60), .str "Food", .null⟩ (1704672000000 : ℤ)).errors).code =
      some "VALIDATION_ERROR" :=
  update_merged_invalid_rejected 1 ⟨none, some (.str "60"), none, none⟩ ⟨1704672000000⟩
    ⟨[⟨1, "2024-01-15", 50, "Food", none, 0⟩], 2⟩ ⟨1, "2024-01-15", 50, "Food", none, 0⟩
    ⟨.str "2024-01-15", .num (.fin 60), .str "Food", .null⟩ true
    (by decide) (by decide) (by decide)

theorem validate_valid_components {e : CandExpense} {now : ℤ}
    (h : (validateExpense e now).isValid = true) :
    dateError e now = none ∧ amountError e = none ∧
    categoryError e = none ∧ descriptionError e = none := by
  have herr := (validateExpense_isValid_iff e now).mp h
  simp only [validateExpense] at herr
  rcases hd : dateError e now with _ | x <;> rcases ha : amountError e with _ | y <;>
    rcases hc : categoryError e with _ | z <;> rcases hds : descriptionError e with _ | w <;>
    simp_all

theorem dateError_none_shape {e : CandExpense} {now : ℤ}
    (h : dateError e now = none) : ∃ d, e.date = .str d ∧ d ≠ "" := by
  unfold dateError at h
  split at h
  · exact Option.noConfusion h
  · rename_i ht
    split at h
    · exact Option.noConfusion h
    · rename_i hv
      rcases hd : e.date with _ | _ | d | x
      all_goals rw [hd] at ht hv
      · simp [truthy] at ht
      · simp [truthy] at ht
      · refine ⟨d, rfl, ?_⟩
        intro hde
        rw [hde] at ht
        simp [truthy] at ht
      · simp [isValidDateJS] at hv

theorem amountError_none_shape {e : CandExpense} {x : JsNum}
    (h : amountError e = none) (hx : e.amount = .num x) :
    ∃ q, x = .fin q := by
  unfold amountError at h
  rw [hx] at h
  split at h
  · exact Option.noConfusion h
  · split at h
    · exact Option.noConfusion h
    · rename_i hnan
      split at h
      · exact Option.noConfusion h
      · split at h
        · exact Option.noConfusion h
        · rename_i hle hgt
          cases x with
          | nan => simp [toNumber, JsNum.isNaN] at hnan
          | inf => simp [jsParseFloat, JsNum.gtQ] at hgt
          | ninf => simp [jsParseFloat, JsNum.leQ] at hle
          | fin q => exact ⟨q, rfl⟩

theorem categoryError_none_shape {e : CandExpense}
    (h : categoryError e = none) : ∃ c, e.category = .str c ∧ c ≠ "" := by
  unfold categoryError at h
  split at h
  · exact Option.noConfusion h
  · rename_i ht
    split at h
    · exact Option.noConfusion h
    · rename_i hinc
      rcases hc : e.category with _ | _ | c | x
      all_goals rw [hc] at ht hinc
      · simp [truthy] at ht
      · simp [truthy] at ht
      · refine ⟨c, rfl, ?_⟩
        intro hce
        rw [hce] at ht
        simp [truthy] at ht
      · simp [categoryIncluded] at hinc

theorem optTrim_shape {v w : JSVal} (h : optTrim v = some w) :
    w = .undef ∨ ∃ t, w = .str t := by
  cases v with
  | undef => simp [optTrim] at h; exact Or.inl h.symm
  | null => simp [optTrim] at h; exact Or.inl h.symm
  | str s => simp [optTrim] at h; exact Or.inr ⟨jsTrim s, h.symm⟩
  | num x => simp [optTrim] at h

theorem sanitize_description {e s : CandExpense} (h : sanitizeExpense e = some s) :
    s.description = .null ∨ ∃ t, s.description = .str t ∧ t ≠ "" := by
  unfold sanitizeExpense at h
  rcases h1 : optTrim e.date with _ | d <;> rw [h1] at h <;>
    rcases h2 : optTrim e.category with _ | c <;> try rw [h2] at h
  all_goals rcases h3 : optTrim e.description with _ | ds <;> try rw [h3] at h
  all_goals simp_all
  have hdesc : s.description = jsOr ds .null := by rw [← h]
  rcases optTrim_shape h3 with hds | ⟨t, hds⟩
  · left; rw [hdesc, hds]; rfl
  · by_cases ht : t = ""
    · left; rw [hdesc, hds, ht]; rfl
    · right
      refine ⟨t, ?_, ht⟩
      rw [hdesc, hds]
      simp [jsOr, truthy, ht]

theorem find?_append_last {l : List Row} {row : Row} {id : ℕ}
    (hrow : (row.id == id) = true)
    (hl : ∀ r ∈ l, (r.id == id) = false) :
    (l ++ [row]).find? (fun r => r.id == id) = some row := by
  rw [List.find?_append]
  rw [List.find?_eq_none.mpr (by intro x hx; simp [hl x hx])]
  simp [List.find?, hrow]

/-- C1: a record that passes validation after sanitization is stored by the
create handler with HTTP 201, and reading it back by the generated id yields
a row equal to the sanitized input on date, amount category and description
(only `id` and `created_at` are generated by the store). -/
theorem create_roundtrip (body : RawBody) (env : Env) (db : DB) (s : CandExpense)
    (hinv : ∀ r ∈ db.rows, r.id < db.nextId)
    (hsan : sanitizeExpense (toRaw body) = some s)
    (hval : (validateExpense s env.now).isValid = true) :
    ∃ row db', createExpense body env db = (.ok (201, some row), db') ∧
      getExpenseById row.id db' = some row ∧
      s.date = .str row.date ∧
      s.amount = .num (.fin row.amount) ∧
      s.category = .str row.category ∧
      s.description = descJS row.description ∧
      row.created_at = env.now := by
  obtain ⟨hdn, han, hcn, _⟩ := validate_valid_components hval
  obtain ⟨d, hd, _⟩ := dateError_none_shape hdn
  obtain ⟨c, hc, _⟩ := categoryError_none_shape hcn
  obtain ⟨q, hq⟩ := amountError_none_shape han (sanitize_amount hsan)
  have hsq : s.amount = .num (.fin q) := by rw [sanitize_amount hsan, ← hq]
  · set row : Row := ⟨db.nextId, d, q, c, descColumn s.description, env.now⟩ with hrowdef
    set db' : DB := ⟨db.rows ++ [row], db.nextId + 1⟩ with hdbdef
    have hfind : getExpenseById db.nextId db' = some row := by
      unfold getExpenseById
      rw [hdbdef]
      exact find?_append_last (by simp [hrowdef])
        (fun r hr => by simp [Nat.ne_of_lt (hinv r hr)])
    have hadd : addExpense s env db = .ok (db', some row) := by
      unfold addExpense
      rw [hd, hsq, hc]
      dsimp only
      rw [hfind]
    refine ⟨row, db', ?_, ?_, ?_, hsq, hc, ?_, rfl⟩
    · unfold createExpense
      rw [hsan]
      dsimp only
      rw [hval]
      simp only [if_true, hadd]
    · exact hfind
    · exact hd
    · show s.description = descJS (descColumn s.description)
      rcases sanitize_description hsan with hnull | ⟨t, hst, hne⟩
      · rw [hnull]; rfl
      · rw [hst]; simp [descColumn, descJS, hne]

/-- Witness for `create_roundtrip`: the spec's example record
`{date: "2024-01-15", amount: "42.50", category: "Food"}` on an empty store. -/
theorem create_roundtrip_witness :
    ∃ row db',
      createExpense ⟨some (.str "2024-01-15"), some (.str "42.50"), some (.str "Food"), none⟩
          ⟨1705276800001⟩ ⟨[], 1⟩ = (.ok (201, some row), db') ∧
      getExpenseById row.id db' = some row ∧
      JSVal.str "2024-01-15" = .str row.date ∧
      JSVal.num (.fin (mkRat 85 2)) = .num (.fin row.amount) ∧
      JSVal.str "Food" = .str row.category ∧
      JSVal.null = descJS row.description ∧
      row.created_at = (1705276800001 : ℤ) :=
  create_roundtrip ⟨some (.str "2024-01-15"), some (.str "42.50"), some (.str "Food"), none⟩
    ⟨1705276800001⟩ ⟨[], 1⟩
    ⟨.str "2024-01-15", .num (.fin (mkRat 85 2)), .str "Food", .null⟩
    (by simp) (by decide) (by decide)

/-- C8 counterexample: a completed HTTP 500 response whose body is not JSON
is surfaced as the generic network error — carrying no server status, code or
details — although a response *was* obtained.  The generic fallback built by
`handleErrorResponse` has no `statusCode` property, so the catch in
`fetchAPI` misclassifies it as a transport failure. -/
theorem fetch_nonjson_error_counterexample :
    fetchAPI (.resp ⟨500, "Internal Server Error", none⟩) = .error networkError ∧
    networkError.message = "Network error. Check your internet connection." ∧
    networkError.statusCode = none ∧ networkError.code = none ∧
    networkError.details = none ∧
    responseOk 500 = false :=
  ⟨rfl, rfl, rfl, rfl, rfl, rfl⟩

/-- C8 (amended): for a non-2xx response whose body parses as JSON, the
thrown error is the application error carrying the server's code, message
and details plus the response status; a network failure before any response
yields the generic network error; but a non-2xx response with a non-JSON
body is *also* surfaced as the generic network error. -/
theorem fetch_error_classification (r : HttpResponse) (b : JsonBody)
    (hok : responseOk r.status = false) :
    (r.jsonBody = some b →
      fetchAPI (.resp r) = .error ⟨(b.error.bind ErrInfo.message).getD "An error occurred",
        some r.status, b.error.bind ErrInfo.code, b.error.bind ErrInfo.details⟩) ∧
    (r.jsonBody = none → fetchAPI (.resp r) = .error networkError) ∧
    fetchAPI .netFail = .error networkError := by
  refine ⟨?_, ?_, rfl⟩
  · intro hjson
    unfold fetchAPI handleErrorResponse
    simp only [hok, Bool.false_eq_true, if_false, hjson]
    rfl
  · intro hjson
    unfold fetchAPI handleErrorResponse
    simp only [hok, Bool.false_eq_true, if_false, hjson]
    rfl

/-- Witness for `fetch_error_classification`: a 400 with the server's JSON
error envelope, and a 502 with an HTML body. -/
theorem fetch_error_classification_witness :
    (fetchAPI (.resp ⟨400, "Bad Request",
        some ⟨some ⟨some "VALIDATION_ERROR", some "Validation failed", some []⟩⟩⟩) =
      .error ⟨"Validation failed", some 400, some "VALIDATION_ERROR", some []⟩) ∧
    (fetchAPI (.resp ⟨502, "Bad Gateway", none⟩) = .error networkError) ∧
    fetchAPI .netFail = .error networkError :=
  ⟨by
    have h := (fetch_error_classification
      ⟨400, "Bad Request", some ⟨some ⟨some "VALIDATION_ERROR", some "Validation failed", some []⟩⟩⟩
      ⟨some ⟨some "VALIDATION_ERROR", some "Validation failed", some []⟩⟩ (by decide)).1 rfl
    exact h,
   (fetch_error_classification ⟨502, "Bad Gateway", none⟩ ⟨none⟩ (by decide)).2.1 rfl,
   (fetch_error_classification ⟨502, "Bad Gateway", none⟩ ⟨none⟩ (by decide)).2.2⟩

/-- C7 counterexample: at noon UTC on 2024-01-15 in a UTC+2 timezone (so the
local calendar date and the UTC calendar date are both 2024-01-15), the
client form validator rejects a record dated 2024-01-15 — the current
calendar date, not a strictly later one — as "in the future": it compares
the date's *UTC* midnight against the current *local* midnight. -/
theorem client_today_rejected_counterexample :
    validateExpenseForm ⟨"2024-01-15", "5", "Food", ""⟩ ⟨19737, 43200000, 120⟩ =
      some "Date cannot be in the future" ∧
    daysFromCivil 2024 1 15 = 19737 ∧
    localDay ⟨19737, 43200000, 120⟩ = 19737 ∧
    Int.fdiv (nowMs ⟨19737, 43200000, 120⟩) 86400000 = 19737 :=
  ⟨by decide, by decide, by decide, by decide⟩

theorem mem_toList_eq {o : Option FieldError} {x : FieldError}
    (h : x ∈ o.toList) : o = some x := by
  cases o <;> simp_all

/-- C7 (amended): for a well-formed date the *server* validator flags "in
the future" exactly when the calendar date is strictly after the current UTC
calendar date (date-only, today never rejected); the *client* validator is
date-only relative to the local calendar date only when the UTC offset is
zero or negative — in a timezone strictly east of UTC it flags every date on
or after the current local date, so a record dated today is rejected. -/
theorem date_future_characterization (e : CandExpense) (fd : FormData) (c : Clock)
    (d : String) (y : ℤ) (m dd : ℕ)
    (hms0 : 0 ≤ c.msInDay) (hms1 : c.msInDay < 86400000)
    (htz0 : -1440 < c.tz) (htz1 : c.tz < 1440)
    (hp : parseIsoDate d = some (y, m, dd)) (hv : isValidDate d = true)
    (he : e.date = .str d) (hf : fd.date = d) :
    ((⟨"date", "Date cannot be in the future"⟩ : FieldError) ∈
        (validateExpense e (nowMs c)).errors ↔ c.utcDay < daysFromCivil y m dd) ∧
    (validateExpenseForm fd c = some "Date cannot be in the future" ↔
      (if 0 < c.tz then localDay c ≤ daysFromCivil y m dd
       else localDay c < daysFromCivil y m dd)) := by
  have hne : d ≠ "" := by
    intro hd0
    rw [hd0] at hp
    simp [parseIsoDate] at hp
  have htruthy : truthy e.date = true := by rw [he]; simp [truthy, hne]
  have hvd : isValidDateJS e.date = true := by rw [he]; simp [isValidDateJS, hv]
  have hdm : jsDateMsJS e.date = daysFromCivil y m dd * 86400000 := by
    rw [he]; simp [jsDateMsJS, dateMs, hp]
  have hde : dateError e (nowMs c) =
      if nowMs c < daysFromCivil y m dd * 86400000 then
        some ⟨"date", "Date cannot be in the future"⟩ else none := by
    unfold dateError
    rw [htruthy, hvd, hdm]
    simp
  have harith : nowMs c < daysFromCivil y m dd * 86400000 ↔
      c.utcDay < daysFromCivil y m dd := by
    rcases c with ⟨u, ms, tz⟩
    simp only [nowMs] at hms0 hms1 ⊢
    generalize daysFromCivil y m dd = N
    omega
  refine ⟨?_, ?_⟩
  · constructor
    · intro hmem
      rw [← harith]
      by_contra hlt
      rw [if_neg hlt] at hde
      simp only [validateExpense, hde, Option.toList_none, List.nil_append,
        List.mem_append] at hmem
      rcases hmem with h | h
      · rcases h with h2 | h2
        · exact absurd (amountError_field (mem_toList_eq h2)) (by decide)
        · exact absurd (categoryError_field (mem_toList_eq h2)) (by decide)
      · exact absurd (descriptionError_field (mem_toList_eq h)) (by decide)
    · intro hlt
      have hsome : dateError e (nowMs c) = some ⟨"date", "Date cannot be in the future"⟩ := by
        rw [hde, if_pos (harith.mpr hlt)]
      simp [validateExpense, hsome]
  · have hclt : localMidnightMs c < daysFromCivil y m dd * 86400000 ↔
        (if 0 < c.tz then localDay c ≤ daysFromCivil y m dd
         else localDay c < daysFromCivil y m dd) := by
      unfold localMidnightMs
      generalize daysFromCivil y m dd = N
      generalize localDay c = L
      rcases c with ⟨u, ms, tz⟩
      split <;> omega
    have hfc : dateFutureClient d c =
        decide (localMidnightMs c < daysFromCivil y m dd * 86400000) := by
      unfold dateFutureClient jsDateOnlyMs
      simp [hv, dateMs, hp]
    unfold validateExpenseForm
    rw [hf, if_neg hne]
    by_cases hlt2 : localMidnightMs c < daysFromCivil y m dd * 86400000
    · have hdf : dateFutureClient d c = true := by
        rw [hfc]
        exact decide_eq_true hlt2
      rw [if_pos hdf]
      exact iff_of_true rfl (hclt.mp hlt2)
    · have hdf : dateFutureClient d c = false := by
        rw [hfc]
        exact decide_eq_false hlt2
      rw [if_neg (by rw [hdf]; exact Bool.false_ne_true)]
      refine iff_of_false ?_ (fun h => hlt2 (hclt.mpr h))
      intro hctr
      repeat' split at hctr
      all_goals (try exact Option.noConfusion hctr)
      all_goals (injection hctr with hctr; exact absurd hctr (by decide))

/-- Witness for `date_future_characterization`: noon on 2024-01-15 UTC in a
UTC-5 timezone, checking a record dated 2024-01-16. -/
theorem date_future_characterization_witness :
    ((⟨"date", "Date cannot be in the future"⟩ : FieldError) ∈
        (validateExpense ⟨.str "2024-01-16", .num (.fin 5), .str "Food", .null⟩
          (nowMs ⟨19737, 43200000, -300⟩)).errors ↔
      (⟨19737, 43200000, -300⟩ : Clock).utcDay < daysFromCivil 2024 1 16) ∧
    (validateExpenseForm ⟨"2024-01-16", "5", "Food", ""⟩ ⟨19737, 43200000, -300⟩ =
        some "Date cannot be in the future" ↔
      (if 0 < (⟨19737, 43200000, -300⟩ : Clock).tz then
        localDay ⟨19737, 43200000, -300⟩ ≤ daysFromCivil 2024 1 16
       else localDay ⟨19737, 43200000, -300⟩ < daysFromCivil 2024 1 16)) :=
  date_future_characterization ⟨.str "2024-01-16", .num (.fin 5), .str "Food", .null⟩
    ⟨"2024-01-16", "5", "Food", ""⟩ ⟨19737, 43200000, -300⟩ "2024-01-16" 2024 1 16
    (by decide) (by decide) (by decide) (by decide) (by decide) (by decide) rfl rfl

/-- C4 counterexample: on the empty data set the summary is neither an empty
result nor an all-zero one: an ungrouped aggregate query still returns one
row, so the result is a single `TOTAL` row whose `SUM`s are SQL NULL
(`ROUND(NULL, 2)` is NULL again), with only `COUNT(*)` at 0. -/
theorem summary_empty_counterexample :
    getExpenseSummary ⟨[], 1⟩ = [⟨0, none, "TOTAL", none⟩] ∧
    ¬(getExpenseSummary ⟨[], 1⟩ = [] ∨
      ∀ row ∈ getExpenseSummary ⟨[], 1⟩, row.totalCount = 0 ∧
        row.totalAmount = some 0 ∧ row.categoryTotal = some 0) := by
  refine ⟨rfl, ?_⟩
  rintro (h | h)
  · exact List.noConfusion h
  · have := (h ⟨0, none, "TOTAL", none⟩ (by decide)).2.1
    exact Option.noConfusion this

theorem insertAsc_perm (s : String) (l : List String) :
    List.Perm (insertAsc s l) (s :: l) := by
  induction l with
  | nil => exact List.Perm.refl _
  | cons t ts ih =>
    unfold insertAsc
    split
    · exact List.Perm.refl _
    · exact (ih.cons t).trans (List.Perm.swap s t ts)

theorem sortStrings_perm (l : List String) : List.Perm (sortStrings l) l := by
  induction l with
  | nil => exact List.Perm.refl _
  | cons a as ih => exact (insertAsc_perm a (sortStrings as)).trans (ih.cons a)

/-- C4 (amended): the summary has, for each category present in the data,
exactly one row carrying that category's row count, its exact amount sum and
that sum rounded to 2 decimals; categories with no rows are absent; and it
has exactly one synthetic `TOTAL` row carrying the total row count, the
exact grand sum and the rounded grand sum — on the empty data set those two
sums are NULL rather than zero (and no error occurs). -/
theorem summary_characterization (db : DB)
    (h : ∀ r ∈ db.rows, r.category ≠ "TOTAL") :
    (∀ c, c ≠ "TOTAL" →
      ((∃ r ∈ db.rows, r.category = c) ↔
        ∃ row ∈ getExpenseSummary db, row.category = c)) ∧
    (∀ c row, row ∈ getExpenseSummary db → row.category = c → c ≠ "TOTAL" →
      row.totalCount = (db.rows.filter (fun r => r.category == c)).length ∧
      row.totalAmount = some (sumAmounts (db.rows.filter (fun r => r.category == c))) ∧
      row.categoryTotal = some (round2 (sumAmounts (db.rows.filter (fun r => r.category == c))))) ∧
    (∀ c, c ≠ "TOTAL" → (∃ r ∈ db.rows, r.category = c) →
      ((getExpenseSummary db).filter (fun row => row.category == c)).length = 1) ∧
    ((getExpenseSummary db).filter (fun row => row.category == "TOTAL")).length = 1 ∧
    (∀ row, row ∈ getExpenseSummary db → row.category = "TOTAL" →
      row.totalCount = db.rows.length ∧
      row.totalAmount = (if db.rows.isEmpty then none else some (sumAmounts db.rows)) ∧
      row.categoryTotal = (if db.rows.isEmpty then none else some (round2 (sumAmounts db.rows)))) := by
  have hmemcats : ∀ x, x ∈ sortStrings (db.rows.map Row.category).dedup ↔
      x ∈ db.rows.map Row.category := fun x =>
    (sortStrings_perm _).mem_iff.trans List.mem_dedup
  have hnodup : (sortStrings (db.rows.map Row.category).dedup).Nodup :=
    (sortStrings_perm _).nodup_iff.mpr (List.nodup_dedup _)
  have hS : getExpenseSummary db = (sortStrings (db.rows.map Row.category).dedup).map
      (fun c => SummaryRow.mk (db.rows.filter (fun r => r.category == c)).length
        (some (sumAmounts (db.rows.filter (fun r => r.category == c)))) c
        (some (round2 (sumAmounts (db.rows.filter (fun r => r.category == c)))))) ++
      [⟨db.rows.length, if db.rows.isEmpty then none else some (sumAmounts db.rows), "TOTAL",
        if db.rows.isEmpty then none else some (round2 (sumAmounts db.rows))⟩] := rfl
  have hnotot : ∀ x ∈ sortStrings (db.rows.map Row.category).dedup, x ≠ "TOTAL" := by
    intro x hx
    obtain ⟨r, hr, hrc⟩ := List.mem_map.mp ((hmemcats x).mp hx)
    rw [← hrc]
    exact h r hr
  refine ⟨?_, ?_, ?_, ?_, ?_⟩
  · intro c hc
    constructor
    · rintro ⟨r, hr, hrc⟩
      refine ⟨SummaryRow.mk (db.rows.filter (fun r2 => r2.category == c)).length
        (some (sumAmounts (db.rows.filter (fun r2 => r2.category == c)))) c
        (some (round2 (sumAmounts (db.rows.filter (fun r2 => r2.category == c))))), ?_, rfl⟩
      rw [hS]
      refine List.mem_append_left _ (List.mem_map_of_mem _ ?_)
      exact (hmemcats c).mpr (List.mem_map.mpr ⟨r, hr, hrc⟩)
    · rintro ⟨row, hrow, hrc⟩
      rw [hS] at hrow
      rcases List.mem_append.mp hrow with hin | hin
      · obtain ⟨c', hc', hfc⟩ := List.mem_map.mp hin
        have : c' = c := by rw [← hrc, ← hfc]
        rw [← this] at hrc ⊢
        obtain ⟨r, hr, hrcat⟩ := List.mem_map.mp ((hmemcats c').mp hc')
        exact ⟨r, hr, hrcat⟩
      · rcases List.mem_singleton.mp hin with rfl
        rw [← hrc] at hc
        exact absurd rfl hc
  · intro c row hrow hrc hc
    rw [hS] at hrow
    rcases List.mem_append.mp hrow with hin | hin
    · obtain ⟨c', _, hfc⟩ := List.mem_map.mp hin
      have hcc : c' = c := by rw [← hrc, ← hfc]
      rw [← hfc, hcc]
      exact ⟨rfl, rfl, rfl⟩
    · rcases List.mem_singleton.mp hin with rfl
      rw [← hrc] at hc
      exact absurd rfl hc
  · intro c hc hpresent
    rw [hS, List.filter_append]
    have h1 : (((sortStrings (db.rows.map Row.category).dedup).map
        (fun c => SummaryRow.mk (db.rows.filter (fun r => r.category == c)).length
          (some (sumAmounts (db.rows.filter (fun r => r.category == c)))) c
          (some (round2 (sumAmounts (db.rows.filter (fun r => r.category == c))))))).filter
        (fun row => row.category == c)).length =
        ((sortStrings (db.rows.map Row.category).dedup).filter (fun x => x == c)).length := by
      rw [List.filter_map]
      rw [List.length_map]
      congr 1
    have h2 : ((sortStrings (db.rows.map Row.category).dedup).filter
        (fun x => x == c)).length = 1 := by
      rw [← List.countP_eq_length_filter]
      have : c ∈ sortStrings (db.rows.map Row.category).dedup := by
        obtain ⟨r, hr, hrc⟩ := hpresent
        exact (hmemcats c).mpr (List.mem_map.mpr ⟨r, hr, hrc⟩)
      exact List.count_eq_one_of_mem hnodup this
    have h3 : (([⟨db.rows.length,
        if db.rows.isEmpty then none else some (sumAmounts db.rows), "TOTAL",
        if db.rows.isEmpty then none else some (round2 (sumAmounts db.rows))⟩] :
          List SummaryRow).filter (fun row => row.category == c)).length = 0 := by
      simp [List.filter, show ("TOTAL" == c) = false from beq_false_of_ne (Ne.symm hc)]
    rw [List.length_append, h1, h2, h3]
  · rw [hS, List.filter_append]
    have h1 : ((sortStrings (db.rows.map Row.category).dedup).map
        (fun c => SummaryRow.mk (db.rows.filter (fun r => r.category == c)).length
          (some (sumAmounts (db.rows.filter (fun r => r.category == c)))) c
          (some (round2 (sumAmounts (db.rows.filter (fun r => r.category == c))))))).filter
        (fun row => row.category == "TOTAL") = [] := by
      rw [List.filter_eq_nil_iff]
      intro row hrow
      obtain ⟨c', hc', hfc⟩ := List.mem_map.mp hrow
      rw [← hfc]
      intro hb
      exact hnotot c' hc' (eq_of_beq hb)
    rw [h1]
    rfl
  · intro row hrow hrc
    rw [hS] at hrow
    rcases List.mem_append.mp hrow with hin | hin
    · obtain ⟨c', hc', hfc⟩ := List.mem_map.mp hin
      have : c' = "TOTAL" := by rw [← hrc, ← hfc]
      exact absurd this (hnotot c' hc')
    · rcases List.mem_singleton.mp hin with rfl
      exact ⟨rfl, rfl, rfl⟩

/-- Witness for `summary_characterization`: two Food rows and one Transport
row. -/
theorem summary_characterization_witness :
    (∀ c, c ≠ "TOTAL" →
      ((∃ r ∈ ([⟨1, "2024-01-10", 5, "Food", none, 0⟩,
          ⟨2, "2024-01-11", 7, "Transport", none, 0⟩,
          ⟨3, "2024-01-12", 10, "Food", none, 0⟩] : List Row), r.category = c) ↔
        ∃ row ∈ getExpenseSummary ⟨[⟨1, "2024-01-10", 5, "Food", none, 0⟩,
          ⟨2, "2024-01-11", 7, "Transport", none, 0⟩,
          ⟨3, "2024-01-12", 10, "Food", none, 0⟩], 4⟩, row.category = c)) ∧
    (∀ c row, row ∈ getExpenseSummary ⟨[⟨1, "2024-01-10", 5, "Food", none, 0⟩,
          ⟨2, "2024-01-11", 7, "Transport", none, 0⟩,
          ⟨3, "2024-01-12", 10, "Food", none, 0⟩], 4⟩ → row.category = c → c ≠ "TOTAL" →
      row.totalCount = (([⟨1, "2024-01-10", 5, "Food", none, 0⟩,
          ⟨2, "2024-01-11", 7, "Transport", none, 0⟩,
          ⟨3, "2024-01-12", 10, "Food", none, 0⟩] : List Row).filter
            (fun r => r.category == c)).length ∧
      row.totalAmount = some (sumAmounts (([⟨1, "2024-01-10", 5, "Food", none, 0⟩,
          ⟨2, "2024-01-11", 7, "Transport", none, 0⟩,
          ⟨3, "2024-01-12", 10, "Food", none, 0⟩] : List Row).filter
            (fun r => r.category == c))) ∧
      row.categoryTotal = some (round2 (sumAmounts (([⟨1, "2024-01-10", 5, "Food", none, 0⟩,
          ⟨2, "2024-01-11", 7, "Transport", none, 0⟩,
          ⟨3, "2024-01-12", 10, "Food", none, 0⟩] : List Row).filter
            (fun r => r.category == c))))) ∧
    (∀ c, c ≠ "TOTAL" → (∃ r ∈ ([⟨1, "2024-01-10", 5, "Food", none, 0⟩,
          ⟨2, "2024-01-11", 7, "Transport", none, 0⟩,
          ⟨3, "2024-01-12", 10, "Food", none, 0⟩] : List Row), r.category = c) →
      ((getExpenseSummary ⟨[⟨1, "2024-01-10", 5, "Food", none, 0⟩,
          ⟨2, "2024-01-11", 7, "Transport", none, 0⟩,
          ⟨3, "2024-01-12", 10, "Food", none, 0⟩], 4⟩).filter
            (fun row => row.category == c)).length = 1) ∧
    ((getExpenseSummary ⟨[⟨1, "2024-01-10", 5, "Food", none, 0⟩,
          ⟨2, "2024-01-11", 7, "Transport", none, 0⟩,
          ⟨3, "2024-01-12", 10, "Food", none, 0⟩], 4⟩).filter
            (fun row => row.category == "TOTAL")).length = 1 ∧
    (∀ row, row ∈ getExpenseSummary ⟨[⟨1, "2024-01-10", 5, "Food", none, 0⟩,
          ⟨2, "2024-01-11", 7, "Transport", none, 0⟩,
          ⟨3, "2024-01-12", 10, "Food", none, 0⟩], 4⟩ → row.category = "TOTAL" →
      row.totalCount = ([⟨1, "2024-01-10", 5, "Food", none, 0⟩,
          ⟨2, "2024-01-11", 7, "Transport", none, 0⟩,
          ⟨3, "2024-01-12", 10, "Food", none, 0⟩] : List Row).length ∧
      row.totalAmount = (if ([⟨1, "2024-01-10", 5, "Food", none, 0⟩,
          ⟨2, "2024-01-11", 7, "Transport", none, 0⟩,
          ⟨3, "2024-01-12", 10, "Food", none, 0⟩] : List Row).isEmpty then none
        else some (sumAmounts ([⟨1, "2024-01-10", 5, "Food", none, 0⟩,
          ⟨2, "2024-01-11", 7, "Transport", none, 0⟩,
          ⟨3, "2024-01-12", 10, "Food", none, 0⟩] : List Row))) ∧
      row.categoryTotal = (if ([⟨1, "2024-01-10", 5, "Food", none, 0⟩,
          ⟨2, "2024-01-11", 7, "Transport", none, 0⟩,
          ⟨3, "2024-01-12", 10, "Food", none, 0⟩] : List Row).isEmpty then none
        else some (round2 (sumAmounts ([⟨1, "2024-01-10", 5, "Food", none, 0⟩,
          ⟨2, "2024-01-11", 7, "Transport", none, 0⟩,
          ⟨3, "2024-01-12", 10, "Food", none, 0⟩] : List Row))))) :=
  summary_characterization ⟨[⟨1, "2024-01-10", 5, "Food", none, 0⟩,
    ⟨2, "2024-01-11", 7, "Transport", none, 0⟩,
    ⟨3, "2024-01-12", 10, "Food", none, 0⟩], 4⟩ (by decide)
